import Mathlib

/-!
Shallow embedding of the ad-monetization plan engine (the Next.js route handler:
`aggregate`, `tactics`, `composeSummary`, `POST`).

Modelling conventions:
* JavaScript numbers are modelled as exact rationals (`ℚ`); impression counts,
  which the data model fixes as non-negative integers, are `ℕ`.
* `Math.round` (round half towards +∞) is modelled by `jsRound q = ⌊q + 1/2⌋`.
* JSON fields that may be absent are `Option`s.
-/

namespace JTP

/-- Ad formats; the enumerated `Format` union type of the source. -/
inductive Format where
  | banner
  | interstitial
  | rewarded
  | native
deriving DecidableEq, Repr

/-- Platforms; the enumerated `Platform` union type of the source. -/
inductive Platform where
  | android
  | ios
  | web
deriving DecidableEq, Repr

/-- The `primary_goal` union type of `BusinessConstraints`. -/
inductive PrimaryGoal where
  | maximize_revenue
  | increase_fill
  | balance_ux
deriving DecidableEq, Repr

/-- The `developer_capacity` union type of `BusinessConstraints`. -/
inductive Capacity where
  | low
  | medium
  | high
deriving DecidableEq, Repr

/-- The `AdUnitMetrics` record: observed performance of one ad placement. -/
structure AdUnitMetrics where
  ad_unit_id : String
  format : Format
  platform : Platform
  avg_ecpm : ℚ
  fill_rate : ℚ
  latency_ms : ℚ
  impressions : ℕ
  revenue : ℚ
deriving DecidableEq, Repr

/-- The `InventoryProfile` record: the inventory of one application.  Its
`policy_flags` is an optional field in the source (`policy_flags?: string[]`). -/
structure InventoryProfile where
  app_id : String
  app_name : String
  sdk_version : String
  mediation_partners : List String
  metrics : List AdUnitMetrics
  policy_flags : Option (List String)
deriving DecidableEq, Repr

/-- The `BusinessConstraints` record. -/
structure BusinessConstraints where
  primary_goal : PrimaryGoal
  latency_budget_ms : ℚ
  developer_capacity : Capacity
deriving DecidableEq, Repr

/-- The benchmark table entry type: reference eCPM and fill rate per format. -/
structure Benchmark where
  avg_ecpm : ℚ
  fill_rate : ℚ
deriving DecidableEq, Repr

/-- The static `benchmarks` record of the source. -/
def benchmarks : Format → Benchmark
  | .rewarded => ⟨9.5, 0.82⟩
  | .interstitial => ⟨6.2, 0.90⟩
  | .banner => ⟨1.2, 0.95⟩
  | .native => ⟨2.2, 0.92⟩

/-- JavaScript `Math.round` rounds half towards +∞, i.e. `⌊q + 1/2⌋`. -/
def jsRound (q : ℚ) : ℤ := ⌊q + 1 / 2⌋

/-- One per-format accumulator bucket of `aggregate`:
`{ imps, revenue, sumLatency, sumFillImps }`. -/
structure Totals where
  imps : ℕ
  revenue : ℚ
  sumLatency : ℚ
  sumFillImps : ℚ
deriving DecidableEq, Repr

/-- Accumulating one ad unit into a bucket, as the inner loop of `aggregate`
does: impressions and revenue add directly, latency and fill rate are
weighted by the impression count of the unit. -/
def addUnit (acc : Totals) (m : AdUnitMetrics) : Totals :=
  { imps := acc.imps + m.impressions
    revenue := acc.revenue + m.revenue
    sumLatency := acc.sumLatency + m.latency_ms * (m.impressions : ℚ)
    sumFillImps := acc.sumFillImps + m.fill_rate * (m.impressions : ℚ) }

/-- All ad units of an inventory, in the iteration order of the nested
`for` loops of the source (profiles in order, then each profile in turn). -/
def allUnits (inventory : List InventoryProfile) : List AdUnitMetrics :=
  (inventory.map (fun inv => inv.metrics)).flatten

/-- The `perFormat[f]` bucket after the accumulation loop of `aggregate`:
every unit whose `format` field matches `f` is accumulated. -/
def perFormatTotals (inventory : List InventoryProfile) (f : Format) : Totals :=
  (allUnits inventory).foldl
    (fun acc m => if m.format = f then addUnit acc m else acc)
    ⟨0, 0, 0, 0⟩

/-- The fixed `formats` array of `aggregate`. -/
def formatsList : List Format := [.banner, .interstitial, .rewarded, .native]

/-- One entry of `byFormat` in the `aggregate` function of the source. -/
structure FormatAgg where
  avg_ecpm : ℚ
  fill_rate : ℚ
  latency_ms : ℤ
  imps : ℕ
  revenue : ℚ
  avg_ecpm_gap : ℚ
  fill_rate_gap : ℚ
deriving DecidableEq, Repr

/-- The `byFormat` entry computed by `aggregate` for format `f`.  The source
guards every division with `agg.imps > 0`; the gap denominators follow
`(benchmarks[f].avg_ecpm || 1)` (substitute 1 for a zero benchmark).  The
`benchmarks[f] ? _ : 0` conditional of the source is always in its then-branch,
since the benchmark table has an entry for every format. -/
def formatAgg (inventory : List InventoryProfile) (f : Format) : FormatAgg :=
  let agg := perFormatTotals inventory f
  let avg_ecpm : ℚ := if agg.imps > 0 then agg.revenue * 1000 / (agg.imps : ℚ) else 0
  let fill_rate : ℚ := if agg.imps > 0 then agg.sumFillImps / (agg.imps : ℚ) else 0
  let latency_ms : ℤ := if agg.imps > 0 then jsRound (agg.sumLatency / (agg.imps : ℚ)) else 0
  let bm := benchmarks f
  { avg_ecpm := avg_ecpm
    fill_rate := fill_rate
    latency_ms := latency_ms
    imps := agg.imps
    revenue := agg.revenue
    avg_ecpm_gap := (avg_ecpm - bm.avg_ecpm) / (if bm.avg_ecpm = 0 then 1 else bm.avg_ecpm)
    fill_rate_gap := fill_rate - bm.fill_rate }

/-- The `totals` reduction of `aggregate`: it folds over the four `byFormat`
entries (not over the raw buckets), re-weighting the already normalized
`latency_ms` and `fill_rate` of each entry by its impressions. -/
def globalTotals (inventory : List InventoryProfile) : Totals :=
  formatsList.foldl
    (fun acc f =>
      let cur := formatAgg inventory f
      { imps := acc.imps + cur.imps
        revenue := acc.revenue + cur.revenue
        sumLatency := acc.sumLatency + (cur.latency_ms : ℚ) * (cur.imps : ℚ)
        sumFillImps := acc.sumFillImps + cur.fill_rate * (cur.imps : ℚ) })
    ⟨0, 0, 0, 0⟩

/-- The `global` part of the result of `aggregate`. -/
structure GlobalAgg where
  avg_ecpm : ℚ
  fill_rate : ℚ
  latency_ms : ℤ
deriving DecidableEq, Repr

/-- The result type of `aggregate`: the four `byFormat` entries plus the
global roll-up. -/
structure Aggregate where
  byFormat : Format → FormatAgg
  global : GlobalAgg

/-- The `aggregate` function of the source. -/
def aggregate (inventory : List InventoryProfile) : Aggregate :=
  let totals := globalTotals inventory
  { byFormat := fun f => formatAgg inventory f
    global :=
      { avg_ecpm := if totals.imps > 0 then totals.revenue * 1000 / (totals.imps : ℚ) else 0
        fill_rate := if totals.imps > 0 then totals.sumFillImps / (totals.imps : ℚ) else 0
        latency_ms := if totals.imps > 0 then jsRound (totals.sumLatency / (totals.imps : ℚ)) else 0 } }

/-- The `PlanSection` record: one recommendation. -/
structure PlanSection where
  id : String
  title : String
  impact_score : ℕ
  effort_score : ℕ
  markdown : String
deriving DecidableEq, Repr

/-- One base-36 digit character, as produced by the JavaScript
`Number.prototype.toString(36)` call (digits then lowercase letters). -/
def base36Char (n : ℕ) : Char :=
  if n < 10 then Char.ofNat (48 + n) else Char.ofNat (87 + n)

/-- Digit list of `n` in base 36, most significant first. -/
def base36Digits (n : ℕ) : List Char :=
  if _h : n < 36 then [base36Char n]
  else base36Digits (n / 36) ++ [base36Char (n % 36)]
decreasing_by
  exact Nat.div_lt_self (by omega) (by omega)

/-- The `Date.now().toString(36)` token: the timestamp rendered in base 36. -/
def base36 (n : ℕ) : String := String.mk (base36Digits n)

/-- The `sdkTarget` constant of `tactics`. -/
def sdkTarget : String := "22.0.0"

/-- The `biddingPartners` constant of `tactics`. -/
def biddingPartners : List String := ["ironSource", "Unity Ads", "AppLovin"]

/-- Rule 1 condition (`biddingNeeded`). -/
abbrev biddingNeeded (agg : Aggregate) : Prop :=
  agg.global.fill_rate ≥ 0.85 ∧
    ((agg.byFormat .rewarded).avg_ecpm_gap ≤ -0.10 ∨
      (agg.byFormat .interstitial).avg_ecpm_gap ≤ -0.10)

/-- The section emitted by rule 1 (`enable_bidding`); its markdown embeds the
latency budget and the time-derived experiment token. -/
def sectionBidding (constraints : BusinessConstraints) (now : ℕ) : PlanSection :=
  let lb := constraints.latency_budget_ms
  { id := "enable_bidding"
    title := "Enable AdMob Bidding for High-Volume Partners"
    impact_score := 5
    effort_score := if constraints.developer_capacity = .low then 4 else 3
    markdown := String.intercalate "\n"
      [ "- Upgrade Google Mobile Ads SDK to version " ++ sdkTarget ++ " for Android/iOS."
      , "- In AdMob → Mediation → Ad sources, enable bidding for " ++
          String.intercalate ", " biddingPartners ++ "."
      , "- Migrate top waterfall instances to bidding; keep a Tier-3 fallback waterfall."
      , "- Set up Firebase Remote Config experiment: `bidding_migration_" ++ base36 now ++ "`."
      , ""
      , "**Metrics to monitor:**"
      , "- Target eCPM uplift: +15–25%"
      , "- Latency: keep below " ++ toString lb ++ " ms" ] }

/-- Rule 2 condition (`floorsNeeded`).  `agg.global.avg_ecpm ?? 0` and
`agg.byFormat.rewarded?.avg_ecpm ?? agg.global.avg_ecpm` never take their
fallbacks: `aggregate` always produces a global value and all four format
entries. -/
abbrev floorsNeeded (agg : Aggregate) : Prop :=
  agg.global.fill_rate ≥ 0.90 ∧
    agg.global.avg_ecpm ≤ 0.95 * (agg.byFormat .rewarded).avg_ecpm

/-- The section emitted by rule 2 (`geo_floors`). -/
def sectionGeoFloors : PlanSection :=
  { id := "geo_floors"
    title := "Introduce Dynamic eCPM Floors by Geo and Format"
    impact_score := 4
    effort_score := 2
    markdown := String.intercalate "\n"
      [ "- Create price floors segmented by major geos (Tier1/Tier2/Tier3) and format."
      , "- Use historical eCPM percentiles: start at P40–P50 for Tier1, P30–P40 for Tier2, minimal floors for Tier3."
      , "- Review floors weekly and auto-adjust based on win rate and fill."
      , "- Keep fill > 88% and ramp floors gradually to avoid demand suppression."
      , ""
      , "**Metrics to monitor:**"
      , "- eCPM uplift versus last 7-day baseline"
      , "- Fill rate stability (target ≥ 0.88)" ] }

/-- The `totalImps` value of rule 3: the sum of the four `byFormat` impression totals. -/
def totalImps (agg : Aggregate) : ℕ :=
  formatsList.foldl (fun s f => s + (agg.byFormat f).imps) 0

/-- The `hasSingleRewardedUnit` condition of rule 3: some profile has at most one
rewarded-format unit. -/
abbrev hasSingleRewardedUnit (inventory : List InventoryProfile) : Prop :=
  ∃ inv ∈ inventory, (inv.metrics.filter (fun m => decide (m.format = .rewarded))).length ≤ 1

/-- The section emitted by rule 3 (`segment_units`). -/
def sectionSegment : PlanSection :=
  { id := "segment_units"
    title := "Segment Ad Units by User Value and Session Depth"
    impact_score := 4
    effort_score := 3
    markdown := String.intercalate "\n"
      [ "- Create audience tiers (whale/mid/casual) via Firebase/GA4."
      , "- Duplicate rewarded and interstitial units per tier; apply floors and frequency caps by tier."
      , "- Use Remote Config to route ad requests by audience in real time."
      , ""
      , "**Metrics to monitor:**"
      , "- ARPDAU and retention delta by audience"
      , "- eCPM per tier; watch whale latency" ] }

/-- Rule 4 condition (`latencyHigh`). -/
abbrev latencyHigh (constraints : BusinessConstraints) (agg : Aggregate) : Prop :=
  (agg.global.latency_ms : ℚ) > constraints.latency_budget_ms

/-- The section emitted by rule 4 (`latency_opt`). -/
def sectionLatency (constraints : BusinessConstraints) : PlanSection :=
  let lb := constraints.latency_budget_ms
  { id := "latency_opt"
    title := "Optimize Latency and SDK Load"
    impact_score := 3
    effort_score := 2
    markdown := String.intercalate "\n"
      [ "- Enable parallel ad requests and prefetch for interstitial/rewarded."
      , "- Cache SDK initialization; avoid redundant re-init per screen."
      , "- Lazy-load banners below the fold; defer heavy rendering."
      , "- Consider Google Mobile Ads Lite or network timeouts on low-bandwidth segments."
      , ""
      , "**Metrics to monitor:**"
      , "- Median ad load time; 95th percentile under " ++ toString lb ++ " ms"
      , "- ANR/Crash rate in Play Console" ] }

/-- Rule 5 condition (`hasPolicyFlags`): `(inv.policy_flags ?? []).length > 0`. -/
abbrev hasPolicyFlags (inventory : List InventoryProfile) : Prop :=
  ∃ inv ∈ inventory, (inv.policy_flags.getD []).length > 0

/-- The section emitted by rule 5 (`policy_health`). -/
def sectionPolicy : PlanSection :=
  { id := "policy_health"
    title := "Policy and Inventory Health Actions"
    impact_score := 3
    effort_score := 2
    markdown := String.intercalate "\n"
      [ "- Review Ad Review Center weekly; auto-archive low-quality creatives."
      , "- Apply sensitive category blocklists where CTR is high but eCPM is low."
      , "- Ensure content compliance (families, COPPA) by ad unit and placement."
      , ""
      , "**Metrics to monitor:**"
      , "- Policy warning count"
      , "- Fill/Revenue impact from blocklists" ] }

/-- Rule 6 condition (`bannerWeak`). -/
abbrev bannerWeak (agg : Aggregate) : Prop :=
  (agg.byFormat .banner).avg_ecpm < (benchmarks .banner).avg_ecpm ∧
    (agg.byFormat .banner).fill_rate ≥ 0.9

/-- The section emitted by rule 6 (`banner_refresh`). -/
def sectionBanner : PlanSection :=
  { id := "banner_refresh"
    title := "Tune Banner Refresh and Viewability"
    impact_score := 3
    effort_score := 1
    markdown := String.intercalate "\n"
      [ "- Set refresh between 30–60s; avoid < 30s to reduce latency and viewability issues."
      , "- Use sticky banners in high-viewability slots; avoid stacking multiple banners."
      , "- Measure viewable impressions and click quality; prune low-quality placements."
      , ""
      , "**Metrics to monitor:**"
      , "- Viewability rate and Invalid Traffic (IVT) signals"
      , "- eCPM change post refresh tuning" ] }

/-- Rule 7 condition (`rewardedVolumeHigh`). -/
abbrev rewardedVolumeHigh (agg : Aggregate) : Prop :=
  (agg.byFormat .rewarded).imps > 150000

/-- The section emitted by rule 7 (`rewarded_caps`). -/
def sectionRewardedCaps : PlanSection :=
  { id := "rewarded_caps"
    title := "Apply Rewarded Frequency Caps and Placement Strategy"
    impact_score := 3
    effort_score := 2
    markdown := String.intercalate "\n"
      [ "- Cap at 2–3 rewarded ads per session for casual users; higher caps for whale cohort."
      , "- Gate rewards behind meaningful actions (level up, revive) to keep perceived value."
      , "- A/B test cap levels via Remote Config (e.g., 2 vs 3)."
      , ""
      , "**Metrics to monitor:**"
      , "- Session length, retention, ARPDAU"
      , "- Complaints/ratings related to ads" ] }

/-- The `tactics` function of the source: the seven rules, evaluated in order,
each appending its section when its condition fires.  `now` stands for the
`Date.now()` call inside the guidance text of rule 1. -/
def tactics (inventory : List InventoryProfile) (constraints : BusinessConstraints)
    (agg : Aggregate) (now : ℕ) : List PlanSection :=
  (if biddingNeeded agg then [sectionBidding constraints now] else []) ++
  (if floorsNeeded agg then [sectionGeoFloors] else []) ++
  (if totalImps agg > 200000 ∧ hasSingleRewardedUnit inventory then [sectionSegment] else []) ++
  (if latencyHigh constraints agg then [sectionLatency constraints] else []) ++
  (if hasPolicyFlags inventory then [sectionPolicy] else []) ++
  (if bannerWeak agg then [sectionBanner] else []) ++
  (if rewardedVolumeHigh agg then [sectionRewardedCaps] else [])

/-- The line ordering of the composer: `(b.impact_score - a.impact_score) ||
(a.effort_score - b.effort_score)` as a boolean "a comes no later than b"
relation — descending impact, ties broken by ascending effort. -/
def sectionLE (a b : PlanSection) : Bool :=
  decide (b.impact_score < a.impact_score) ||
    (decide (a.impact_score = b.impact_score) && decide (a.effort_score ≤ b.effort_score))

/-- JavaScript `Array.prototype.sort` with the above comparator: a stable sort. -/
def sortSections (sections : List PlanSection) : List PlanSection :=
  sections.mergeSort sectionLE

/-- Two decimal places, as `Number.prototype.toFixed(2)` renders our values
(exact rationals stand in for binary doubles, so rounding of a representable
value is exact). -/
def fmt2 (q : ℚ) : String :=
  let c : ℤ := jsRound (q * 100)
  let sign := if c < 0 then "-" else ""
  let lo := c.natAbs % 100
  sign ++ toString (c.natAbs / 100) ++ "." ++
    (if lo < 10 then "0" ++ toString lo else toString lo)

/-- The format names as they appear in the per-format summary lines. -/
def formatName : Format → String
  | .banner => "banner"
  | .interstitial => "interstitial"
  | .rewarded => "rewarded"
  | .native => "native"

/-- One per-format benchmark line of the summary. -/
def perFormatLine (agg : Aggregate) (f : Format) : String :=
  let m := agg.byFormat f
  let bm := benchmarks f
  "- " ++ formatName f ++ ": " ++ fmt2 m.avg_ecpm ++ " (benchmark " ++ fmt2 bm.avg_ecpm ++
    ") — gap " ++ (if m.avg_ecpm_gap * 100 ≥ 0 then "+" else "") ++
    fmt2 (m.avg_ecpm_gap * 100) ++ "%"

/-- The head of the summary document: title, global snapshot, per-format
benchmark table (in the fixed display order of the source). -/
def headLines (accountName : String) (agg : Aggregate) : List String :=
  [ "# Technical Monetization Plan — " ++ accountName
  , ""
  , "## Inventory Snapshot (Aggregated)"
  , "- Global eCPM: " ++ fmt2 agg.global.avg_ecpm
  , "- Global fill rate: " ++ fmt2 agg.global.fill_rate
  , "- Global latency: " ++ toString agg.global.latency_ms ++ " ms"
  , ""
  , "### Per-format eCPM vs benchmark" ] ++
  ([Format.rewarded, .interstitial, .banner, .native].map (perFormatLine agg))

/-- The numbered priority list: `${i + 1}. ${title} (Impact _ / Effort _)`. -/
def numberLines (sections : List PlanSection) : List String :=
  sections.mapIdx (fun i s =>
    toString (i + 1) ++ ". " ++ s.title ++ " (Impact " ++ toString s.impact_score ++
      " / Effort " ++ toString s.effort_score ++ ")")

/-- The line list of `composeSummary`; the source sorts the sections it was
given (again) before numbering them. -/
def composeSummaryLines (accountName : String) (agg : Aggregate)
    (sections : List PlanSection) : List String :=
  headLines accountName agg ++ ["", "## Priority Summary"] ++
    numberLines (sortSections sections) ++ [""]

/-- The `composeSummary` function of the source: the lines joined with newlines. -/
def composeSummary (accountName : String) (agg : Aggregate)
    (sections : List PlanSection) : String :=
  String.intercalate "\n" (composeSummaryLines accountName agg sections)

/-- The `PlanCreateRequest` body as the route handler sees the parsed JSON:
every field may be absent. -/
structure PlanCreateRequest where
  account_name : Option String
  inventory : Option (List InventoryProfile)
  constraints : Option BusinessConstraints
deriving DecidableEq

/-- The `PlanResponse` record.  The source nests the summary as `summary.markdown`;
here it is the flat `summary_markdown` field. -/
structure PlanResponse where
  account_name : String
  summary_markdown : String
  sections : List PlanSection
  constraints : BusinessConstraints
deriving DecidableEq

/-- The observable outcome of one `POST` call: a 200 JSON plan, a 400
`{ detail }` validation rejection, or a 500 response (whose diagnostic is the
message of the caught runtime exception, which is environment-specific and
therefore not modelled). -/
inductive ApiResult where
  | ok (resp : PlanResponse)
  | clientError (detail : String)
  | serverError
deriving DecidableEq

/-- The route handler `POST`.  Validation (`!body.account_name ||
!Array.isArray(body.inventory) || body.inventory.length === 0`) is checked
first.  When `constraints` is absent, rule 4 of `tactics` unconditionally
reads `constraints.latency_budget_ms`, so evaluation throws a `TypeError`
that the surrounding `try`/`catch` turns into the 500 response; that outcome
is modelled as `ApiResult.serverError`. -/
def POST (body : PlanCreateRequest) (now : ℕ) : ApiResult :=
  match body.account_name, body.inventory with
  | some name, some inv =>
    if name = "" ∨ inv = [] then .clientError "Missing account_name or inventory"
    else
      match body.constraints with
      | none => .serverError
      | some constraints =>
        let agg := aggregate inv
        let sections := sortSections (tactics inv constraints agg now)
        let summary := composeSummary name agg sections
        .ok { account_name := name, summary_markdown := summary
              sections := sections, constraints := constraints }
  | _, _ => .clientError "Missing account_name or inventory"

/-- Following the words of the spec for the global-aggregate invariant: treat all
ad units across all formats as one pool — sum raw impressions, revenue,
impression-weighted latency and impression-weighted fill across all units. -/
def specPooledTotals (inventory : List InventoryProfile) : Totals :=
  (allUnits inventory).foldl addUnit ⟨0, 0, 0, 0⟩

/-- Following the words of the spec: the global figures obtained by normalizing
the one pool once. -/
def specPooledGlobal (inventory : List InventoryProfile) : GlobalAgg :=
  let t := specPooledTotals inventory
  { avg_ecpm := if t.imps > 0 then t.revenue * 1000 / (t.imps : ℚ) else 0
    fill_rate := if t.imps > 0 then t.sumFillImps / (t.imps : ℚ) else 0
    latency_ms := if t.imps > 0 then jsRound (t.sumLatency / (t.imps : ℚ)) else 0 }

/-- The units of one format, in iteration order. -/
def unitsOf (inventory : List InventoryProfile) (f : Format) : List AdUnitMetrics :=
  (allUnits inventory).filter (fun m => decide (m.format = f))

/-- Raw impression total of a unit list. -/
def impsSum (l : List AdUnitMetrics) : ℕ := (l.map (fun m => m.impressions)).sum

/-- Raw revenue total of a unit list. -/
def revSum (l : List AdUnitMetrics) : ℚ := (l.map (fun m => m.revenue)).sum

/-- Raw impression-weighted latency total of a unit list. -/
def latSum (l : List AdUnitMetrics) : ℚ :=
  (l.map (fun m => m.latency_ms * (m.impressions : ℚ))).sum

/-- Raw impression-weighted fill total of a unit list. -/
def fillSum (l : List AdUnitMetrics) : ℚ :=
  (l.map (fun m => m.fill_rate * (m.impressions : ℚ))).sum

theorem foldl_addUnit (l : List AdUnitMetrics) (t : Totals) :
    l.foldl addUnit t =
      ⟨t.imps + impsSum l, t.revenue + revSum l, t.sumLatency + latSum l,
        t.sumFillImps + fillSum l⟩ := by
  induction l generalizing t with
  | nil => simp [impsSum, revSum, latSum, fillSum]
  | cons m rest ih =>
    simp only [List.foldl_cons, ih, addUnit, impsSum, revSum, latSum, fillSum,
      List.map_cons, List.sum_cons, Totals.mk.injEq]
    refine ⟨by omega, ?_, ?_, ?_⟩ <;> ring

theorem foldl_addUnit_ite (l : List AdUnitMetrics) (f : Format) (t : Totals) :
    l.foldl (fun acc m => if m.format = f then addUnit acc m else acc) t =
      (l.filter (fun m => decide (m.format = f))).foldl addUnit t := by
  induction l generalizing t with
  | nil => simp
  | cons m rest ih =>
    by_cases h : m.format = f <;> simp [List.filter_cons, h, ih]

theorem perFormatTotals_eq (inventory : List InventoryProfile) (f : Format) :
    perFormatTotals inventory f =
      ⟨impsSum (unitsOf inventory f), revSum (unitsOf inventory f),
        latSum (unitsOf inventory f), fillSum (unitsOf inventory f)⟩ := by
  rw [perFormatTotals, foldl_addUnit_ite, foldl_addUnit]
  simp [unitsOf]

theorem specPooledTotals_eq (inventory : List InventoryProfile) :
    specPooledTotals inventory =
      ⟨impsSum (allUnits inventory), revSum (allUnits inventory),
        latSum (allUnits inventory), fillSum (allUnits inventory)⟩ := by
  rw [specPooledTotals, foldl_addUnit]; simp

theorem impsSum_partition (l : List AdUnitMetrics) :
    impsSum (l.filter (fun m => decide (m.format = .banner))) +
      impsSum (l.filter (fun m => decide (m.format = .interstitial))) +
      impsSum (l.filter (fun m => decide (m.format = .rewarded))) +
      impsSum (l.filter (fun m => decide (m.format = .native))) = impsSum l := by
  induction l with
  | nil => simp [impsSum]
  | cons m rest ih =>
    simp only [impsSum] at ih
    cases hf : m.format <;> simp [List.filter_cons, hf, impsSum] <;> omega

theorem qsum_partition (g : AdUnitMetrics → ℚ) (l : List AdUnitMetrics) :
    ((l.filter (fun m => decide (m.format = .banner))).map g).sum +
      ((l.filter (fun m => decide (m.format = .interstitial))).map g).sum +
      ((l.filter (fun m => decide (m.format = .rewarded))).map g).sum +
      ((l.filter (fun m => decide (m.format = .native))).map g).sum = (l.map g).sum := by
  induction l with
  | nil => simp
  | cons m rest ih =>
    cases hf : m.format <;> simp [List.filter_cons, hf] <;> linarith [ih]

theorem formatAgg_imps (inventory : List InventoryProfile) (f : Format) :
    (formatAgg inventory f).imps = impsSum (unitsOf inventory f) := by
  simp [formatAgg, perFormatTotals_eq]

theorem formatAgg_revenue (inventory : List InventoryProfile) (f : Format) :
    (formatAgg inventory f).revenue = revSum (unitsOf inventory f) := by
  simp [formatAgg, perFormatTotals_eq]

theorem formatAgg_avg_ecpm (inventory : List InventoryProfile) (f : Format) :
    (formatAgg inventory f).avg_ecpm =
      if impsSum (unitsOf inventory f) > 0 then
        revSum (unitsOf inventory f) * 1000 / (impsSum (unitsOf inventory f) : ℚ)
      else 0 := by
  simp [formatAgg, perFormatTotals_eq]

theorem formatAgg_fill_rate (inventory : List InventoryProfile) (f : Format) :
    (formatAgg inventory f).fill_rate =
      if impsSum (unitsOf inventory f) > 0 then
        fillSum (unitsOf inventory f) / (impsSum (unitsOf inventory f) : ℚ)
      else 0 := by
  simp [formatAgg, perFormatTotals_eq]

theorem formatAgg_latency_ms (inventory : List InventoryProfile) (f : Format) :
    (formatAgg inventory f).latency_ms =
      if impsSum (unitsOf inventory f) > 0 then
        jsRound (latSum (unitsOf inventory f) / (impsSum (unitsOf inventory f) : ℚ))
      else 0 := by
  simp [formatAgg, perFormatTotals_eq]

theorem formatAgg_avg_ecpm_gap (inventory : List InventoryProfile) (f : Format) :
    (formatAgg inventory f).avg_ecpm_gap =
      ((formatAgg inventory f).avg_ecpm - (benchmarks f).avg_ecpm) /
        (if (benchmarks f).avg_ecpm = 0 then 1 else (benchmarks f).avg_ecpm) := by
  simp [formatAgg, perFormatTotals_eq]

theorem formatAgg_fill_rate_gap (inventory : List InventoryProfile) (f : Format) :
    (formatAgg inventory f).fill_rate_gap =
      (formatAgg inventory f).fill_rate - (benchmarks f).fill_rate := by
  simp [formatAgg, perFormatTotals_eq]

theorem impsSum_zero_all (l : List AdUnitMetrics) (h : impsSum l = 0) :
    ∀ m ∈ l, m.impressions = 0 := by
  intro m hm
  simp only [impsSum] at h
  have := (List.sum_eq_zero_iff (l := l.map (fun m => m.impressions))).mp h
  exact this _ (List.mem_map_of_mem _ hm)

theorem fillSum_of_imps_zero (l : List AdUnitMetrics) (h : impsSum l = 0) :
    fillSum l = 0 := by
  apply List.sum_eq_zero
  intro x hx
  obtain ⟨m, hm, rfl⟩ := List.mem_map.mp hx
  simp [impsSum_zero_all l h m hm]

/-- The `totals` reduction recovers the exact fill mass of each bucket: in exact
arithmetic, `fill_rate * imps` undoes the normalization. -/
theorem fill_mass_recovered (inventory : List InventoryProfile) (f : Format) :
    (formatAgg inventory f).fill_rate * ((formatAgg inventory f).imps : ℚ) =
      fillSum (unitsOf inventory f) := by
  rw [formatAgg_fill_rate, formatAgg_imps]
  rcases Nat.eq_zero_or_pos (impsSum (unitsOf inventory f)) with h | h
  · simp [h, fillSum_of_imps_zero _ h]
  · have hne : ((impsSum (unitsOf inventory f) : ℚ)) ≠ 0 := by
      exact_mod_cast Nat.pos_iff_ne_zero.mp h
    rw [if_pos h]
    field_simp

theorem globalTotals_imps (inventory : List InventoryProfile) :
    (globalTotals inventory).imps = impsSum (allUnits inventory) := by
  have h := impsSum_partition (allUnits inventory)
  simp only [globalTotals, formatsList, List.foldl_cons, List.foldl_nil]
  simp only [formatAgg_imps, unitsOf] at *
  omega

theorem globalTotals_revenue (inventory : List InventoryProfile) :
    (globalTotals inventory).revenue = revSum (allUnits inventory) := by
  have h := qsum_partition (fun m => m.revenue) (allUnits inventory)
  simp only [globalTotals, formatsList, List.foldl_cons, List.foldl_nil]
  simp only [formatAgg_revenue, unitsOf, revSum] at *
  linarith

theorem globalTotals_sumFillImps (inventory : List InventoryProfile) :
    (globalTotals inventory).sumFillImps = fillSum (allUnits inventory) := by
  have h := qsum_partition (fun m => m.fill_rate * (m.impressions : ℚ)) (allUnits inventory)
  simp only [globalTotals, formatsList, List.foldl_cons, List.foldl_nil]
  simp only [fill_mass_recovered, unitsOf, fillSum] at *
  linarith

/-- Claim C1 (amended): for every inventory list, the GlobalAggregate
average eCPM and fill rate equal the values obtained by treating all ad
units across all four formats as one pool (summing raw impressions, revenue
and impression-weighted fill across all units, then normalizing once).  The
global latency, by contrast, is computed from the four already-rounded
per-format average latencies, which the latency counterexample shows can
differ from the one-pool value. -/
theorem C1_global_pooling (inventory : List InventoryProfile) :
    (aggregate inventory).global.avg_ecpm = (specPooledGlobal inventory).avg_ecpm ∧
      (aggregate inventory).global.fill_rate = (specPooledGlobal inventory).fill_rate := by
  constructor <;>
    simp [aggregate, specPooledGlobal, specPooledTotals_eq, globalTotals_imps,
      globalTotals_revenue, globalTotals_sumFillImps]

/-- A banner unit with latency 0 and 1 impression. -/
def cexUnitA : AdUnitMetrics :=
  { ad_unit_id := "u1", format := .banner, platform := .android, avg_ecpm := 0
    fill_rate := 0, latency_ms := 0, impressions := 1, revenue := 0 }

/-- A banner unit with latency 1 and 1 impression. -/
def cexUnitB : AdUnitMetrics :=
  { ad_unit_id := "u2", format := .banner, platform := .android, avg_ecpm := 0
    fill_rate := 0, latency_ms := 1, impressions := 1, revenue := 0 }

/-- A rewarded unit with latency 0 and 2 impressions. -/
def cexUnitC : AdUnitMetrics :=
  { ad_unit_id := "u3", format := .rewarded, platform := .android, avg_ecpm := 0
    fill_rate := 0, latency_ms := 0, impressions := 2, revenue := 0 }

/-- The inventory refuting the latency part of claim C1: the banner bucket
average latency 0.5 ms rounds up to 1 ms before the global reduction. -/
def cexInventory : List InventoryProfile :=
  [{ app_id := "app1", app_name := "App One", sdk_version := "21.0.0"
     mediation_partners := [], metrics := [cexUnitA, cexUnitB, cexUnitC]
     policy_flags := none }]

/-- Claim C1 counterexample: on `cexInventory` the engine reports a global
latency of 1 ms, while pooling all units directly (raw weighted latency 1
over 4 impressions, rounded once) gives 0 ms — so the GlobalAggregate
latency does not equal the one-pool value. -/
theorem C1_cex :
    (aggregate cexInventory).global.latency_ms = 1 ∧
      (specPooledGlobal cexInventory).latency_ms = 0 := by
  constructor <;>
    · simp [aggregate, globalTotals, formatsList, formatAgg, perFormatTotals,
        allUnits, addUnit, cexInventory, cexUnitA, cexUnitB, cexUnitC,
        specPooledGlobal, specPooledTotals]
      norm_num [jsRound]

/-- Claim C3: for every format bucket with positive total impressions, the
FormatAggregate satisfies average eCPM = (total revenue × 1000) / total
impressions, average fill rate = impression-weighted fill sum / total
impressions, average latency = round(impression-weighted latency sum / total
impressions); its eCPM gap is (observed − benchmark)/benchmark (the
substitute-1 guard for a zero benchmark never fires, as all four benchmarks
are nonzero) and its fill-rate gap is observed − benchmark, unnormalized. -/
theorem C3_format_aggregate (inventory : List InventoryProfile) (f : Format)
    (h : 0 < impsSum (unitsOf inventory f)) :
    (formatAgg inventory f).avg_ecpm =
        revSum (unitsOf inventory f) * 1000 / (impsSum (unitsOf inventory f) : ℚ) ∧
      (formatAgg inventory f).fill_rate =
        fillSum (unitsOf inventory f) / (impsSum (unitsOf inventory f) : ℚ) ∧
      (formatAgg inventory f).latency_ms =
        jsRound (latSum (unitsOf inventory f) / (impsSum (unitsOf inventory f) : ℚ)) ∧
      (formatAgg inventory f).avg_ecpm_gap =
        ((formatAgg inventory f).avg_ecpm - (benchmarks f).avg_ecpm) /
          (benchmarks f).avg_ecpm ∧
      (formatAgg inventory f).fill_rate_gap =
        (formatAgg inventory f).fill_rate - (benchmarks f).fill_rate := by
  have hbm : (benchmarks f).avg_ecpm ≠ 0 := by cases f <;> norm_num [benchmarks]
  refine ⟨?_, ?_, ?_, ?_, ?_⟩
  · rw [formatAgg_avg_ecpm, if_pos h]
  · rw [formatAgg_fill_rate, if_pos h]
  · rw [formatAgg_latency_ms, if_pos h]
  · rw [formatAgg_avg_ecpm_gap, if_neg hbm]
  · exact formatAgg_fill_rate_gap inventory f

/-- The end-to-end rewarded unit of the spec: 240000 impressions, revenue 1968
(eCPM 8.2), fill rate 0.86, latency 1300 ms. -/
def e2eUnit : AdUnitMetrics :=
  { ad_unit_id := "rewarded_main", format := .rewarded, platform := .android
    avg_ecpm := 8.2, fill_rate := 0.86, latency_ms := 1300
    impressions := 240000, revenue := 1968 }

/-- A one-profile inventory holding the end-to-end rewarded unit. -/
def e2eInventory : List InventoryProfile :=
  [{ app_id := "app2", app_name := "App Two", sdk_version := "22.0.0"
     mediation_partners := ["AdMob"], metrics := [e2eUnit], policy_flags := none }]

/-- Claim C3 witness: the rewarded bucket of the end-to-end inventory has
positive impressions, and the equations of the claim hold there. -/
theorem C3_format_aggregate_witness :
    0 < impsSum (unitsOf e2eInventory .rewarded) ∧
      ((formatAgg e2eInventory .rewarded).avg_ecpm =
          revSum (unitsOf e2eInventory .rewarded) * 1000 /
            (impsSum (unitsOf e2eInventory .rewarded) : ℚ) ∧
        (formatAgg e2eInventory .rewarded).fill_rate =
          fillSum (unitsOf e2eInventory .rewarded) /
            (impsSum (unitsOf e2eInventory .rewarded) : ℚ) ∧
        (formatAgg e2eInventory .rewarded).latency_ms =
          jsRound (latSum (unitsOf e2eInventory .rewarded) /
            (impsSum (unitsOf e2eInventory .rewarded) : ℚ)) ∧
        (formatAgg e2eInventory .rewarded).avg_ecpm_gap =
          ((formatAgg e2eInventory .rewarded).avg_ecpm -
              (benchmarks .rewarded).avg_ecpm) / (benchmarks .rewarded).avg_ecpm ∧
        (formatAgg e2eInventory .rewarded).fill_rate_gap =
          (formatAgg e2eInventory .rewarded).fill_rate -
            (benchmarks .rewarded).fill_rate) :=
  ⟨by decide, C3_format_aggregate e2eInventory .rewarded (by decide)⟩

/-- Claim C8 counterexample: when a format is absent the FormatAggregate
values are not all zero — on the empty inventory the rewarded entry has
relative eCPM gap (0 − 9.5)/9.5 = −1. -/
theorem C8_cex :
    (formatAgg ([] : List InventoryProfile) Format.rewarded).avg_ecpm_gap ≠ 0 := by
  rw [formatAgg_avg_ecpm_gap, formatAgg_avg_ecpm]
  norm_num [unitsOf, allUnits, impsSum, benchmarks]

/-- Claim C8 (amended): every one of the four formats always has an
aggregate entry; when the format is absent all its accumulated metrics
(impressions, revenue, eCPM, fill rate, latency) are zero while its
benchmark gaps equal −1 (relative eCPM gap) and −benchmark (fill-rate gap);
and no division by zero occurs: any zero-impression bucket, and a
zero-impression global pool, yield 0 for all derived rates. -/
theorem C8_zero (inventory : List InventoryProfile) (f : Format) :
    (unitsOf inventory f = [] →
        (formatAgg inventory f).imps = 0 ∧
        (formatAgg inventory f).revenue = 0 ∧
        (formatAgg inventory f).avg_ecpm = 0 ∧
        (formatAgg inventory f).fill_rate = 0 ∧
        (formatAgg inventory f).latency_ms = 0 ∧
        (formatAgg inventory f).avg_ecpm_gap = -1 ∧
        (formatAgg inventory f).fill_rate_gap = -(benchmarks f).fill_rate) ∧
      ((formatAgg inventory f).imps = 0 →
        (formatAgg inventory f).avg_ecpm = 0 ∧
        (formatAgg inventory f).fill_rate = 0 ∧
        (formatAgg inventory f).latency_ms = 0) ∧
      ((globalTotals inventory).imps = 0 →
        (aggregate inventory).global.avg_ecpm = 0 ∧
        (aggregate inventory).global.fill_rate = 0 ∧
        (aggregate inventory).global.latency_ms = 0) := by
  refine ⟨fun h => ?_, fun h => ?_, fun h => ?_⟩
  · have h0 : impsSum (unitsOf inventory f) = 0 := by simp [h, impsSum]
    have hecpm : (formatAgg inventory f).avg_ecpm = 0 := by
      rw [formatAgg_avg_ecpm]; simp [h0]
    have hfill : (formatAgg inventory f).fill_rate = 0 := by
      rw [formatAgg_fill_rate]; simp [h0]
    refine ⟨?_, ?_, hecpm, hfill, ?_, ?_, ?_⟩
    · rw [formatAgg_imps, h0]
    · rw [formatAgg_revenue, h]; simp [revSum]
    · rw [formatAgg_latency_ms]; simp [h0]
    · rw [formatAgg_avg_ecpm_gap, hecpm]; cases f <;> norm_num [benchmarks]
    · rw [formatAgg_fill_rate_gap, hfill]; ring
  · rw [formatAgg_imps] at h
    refine ⟨?_, ?_, ?_⟩
    · rw [formatAgg_avg_ecpm]; simp [h]
    · rw [formatAgg_fill_rate]; simp [h]
    · rw [formatAgg_latency_ms]; simp [h]
  · refine ⟨?_, ?_, ?_⟩ <;> simp [aggregate, h]

/-- Claim C8 witness: the absent-format clause evaluated on the empty
rewarded bucket of the empty inventory. -/
theorem C8_zero_witness :
    (formatAgg ([] : List InventoryProfile) Format.rewarded).imps = 0 ∧
      (formatAgg ([] : List InventoryProfile) Format.rewarded).revenue = 0 ∧
      (formatAgg ([] : List InventoryProfile) Format.rewarded).avg_ecpm = 0 ∧
      (formatAgg ([] : List InventoryProfile) Format.rewarded).fill_rate = 0 ∧
      (formatAgg ([] : List InventoryProfile) Format.rewarded).latency_ms = 0 ∧
      (formatAgg ([] : List InventoryProfile) Format.rewarded).avg_ecpm_gap = -1 ∧
      (formatAgg ([] : List InventoryProfile) Format.rewarded).fill_rate_gap =
        -(benchmarks Format.rewarded).fill_rate :=
  (C8_zero [] Format.rewarded).1 rfl

/-- The display ordering of PlanSections, as a relation: descending impact
score, ties broken by ascending effort score. -/
def sectionOrder (a b : PlanSection) : Prop :=
  b.impact_score < a.impact_score ∨
    (a.impact_score = b.impact_score ∧ a.effort_score ≤ b.effort_score)

theorem sectionLE_iff (a b : PlanSection) : sectionLE a b = true ↔ sectionOrder a b := by
  simp [sectionLE, sectionOrder]

theorem sectionLE_trans (a b c : PlanSection) (hab : sectionLE a b = true)
    (hbc : sectionLE b c = true) : sectionLE a c = true := by
  simp only [sectionLE_iff, sectionOrder] at *
  omega

theorem sectionLE_total (a b : PlanSection) : (sectionLE a b || sectionLE b a) = true := by
  simp only [Bool.or_eq_true, sectionLE_iff, sectionOrder]
  omega

theorem sortSections_sorted (sections : List PlanSection) :
    (sortSections sections).Pairwise (fun a b => sectionLE a b = true) :=
  List.sorted_mergeSort sectionLE_trans sectionLE_total sections

theorem sortSections_idem (sections : List PlanSection) :
    sortSections (sortSections sections) = sortSections sections :=
  List.mergeSort_of_sorted (sortSections_sorted sections)

/-- Claim C2: for every accepted request, the PlanSections of the response are
sorted by descending impact score with ties broken by ascending effort
score, and the numbered priority list of the rendered summary document
numbers exactly those sections in exactly that order. -/
theorem C2_response_order (name : String) (inventory : List InventoryProfile)
    (constraints : BusinessConstraints) (now : ℕ)
    (hname : name ≠ "") (hinv : inventory ≠ []) :
    ∃ resp,
      POST ⟨some name, some inventory, some constraints⟩ now = ApiResult.ok resp ∧
        resp.sections.Pairwise sectionOrder ∧
        resp.summary_markdown = String.intercalate "\n"
          (headLines name (aggregate inventory) ++ ["", "## Priority Summary"] ++
            numberLines resp.sections ++ [""]) := by
  refine
    ⟨{ account_name := name
       summary_markdown := composeSummary name (aggregate inventory)
         (sortSections (tactics inventory constraints (aggregate inventory) now))
       sections := sortSections (tactics inventory constraints (aggregate inventory) now)
       constraints := constraints }, ?_, ?_, ?_⟩
  · have hcond : ¬(name = "" ∨ inventory = []) := by
      rintro (h | h)
      exacts [hname h, hinv h]
    simp only [POST]
    rw [if_neg hcond]
  · refine List.Pairwise.imp ?_
      (sortSections_sorted (tactics inventory constraints (aggregate inventory) now))
    intro a b hab
    exact (sectionLE_iff a b).mp hab
  · simp only [composeSummary, composeSummaryLines, sortSections_idem]

/-- A fixed constraints record used by concrete witnesses. -/
def wConstraints : BusinessConstraints :=
  { primary_goal := .maximize_revenue, latency_budget_ms := 1200
    developer_capacity := .medium }

/-- Claim C2 witness: a concrete accepted request. -/
theorem C2_response_order_witness :
    ∃ resp,
      POST ⟨some "acme", some e2eInventory, some wConstraints⟩ 0 = ApiResult.ok resp ∧
        resp.sections.Pairwise sectionOrder ∧
        resp.summary_markdown = String.intercalate "\n"
          (headLines "acme" (aggregate e2eInventory) ++ ["", "## Priority Summary"] ++
            numberLines resp.sections ++ [""]) :=
  C2_response_order "acme" e2eInventory wConstraints 0 (by decide)
    (by simp [e2eInventory])

theorem mem_ite_nil {c : Prop} [Decidable c] (s : PlanSection) (l : List PlanSection) :
    (s ∈ if c then l else []) ↔ c ∧ s ∈ l := by
  split <;> simp [*]

theorem exists_mem_append_iff (l₁ l₂ : List PlanSection) (p : PlanSection → Prop) :
    (∃ s ∈ l₁ ++ l₂, p s) ↔ (∃ s ∈ l₁, p s) ∨ ∃ s ∈ l₂, p s := by
  constructor
  · rintro ⟨s, hs, hp⟩
    rcases List.mem_append.mp hs with h | h
    exacts [Or.inl ⟨s, h, hp⟩, Or.inr ⟨s, h, hp⟩]
  · rintro (⟨s, h, hp⟩ | ⟨s, h, hp⟩)
    exacts [⟨s, List.mem_append.mpr (Or.inl h), hp⟩,
      ⟨s, List.mem_append.mpr (Or.inr h), hp⟩]

theorem exists_mem_ite_one {c : Prop} [Decidable c] (x : PlanSection)
    (p : PlanSection → Prop) :
    (∃ s ∈ (if c then [x] else ([] : List PlanSection)), p s) ↔ c ∧ p x := by
  split <;> simp [*]

/-- Claim C4: the geo_floors rule fires exactly when the global fill rate is
≥ 0.90 and the global average eCPM is ≤ 0.95 × the rewarded average
eCPM (the absent-rewarded fallback clause of the spec is vacuous: `aggregate`
always materializes all four format entries); its section carries impact 4
and effort 2. -/
theorem C4_geo_floors (inventory : List InventoryProfile)
    (constraints : BusinessConstraints) (now : ℕ) :
    ((∃ s ∈ tactics inventory constraints (aggregate inventory) now,
        s.id = "geo_floors") ↔
      ((aggregate inventory).global.fill_rate ≥ 0.90 ∧
        (aggregate inventory).global.avg_ecpm ≤
          0.95 * ((aggregate inventory).byFormat .rewarded).avg_ecpm)) ∧
      ∀ s ∈ tactics inventory constraints (aggregate inventory) now,
        s.id = "geo_floors" → s.impact_score = 4 ∧ s.effort_score = 2 := by
  constructor
  · simp only [tactics, exists_mem_append_iff, exists_mem_ite_one]
    simp [sectionBidding, sectionGeoFloors, sectionSegment, sectionLatency,
      sectionPolicy, sectionBanner, sectionRewardedCaps, floorsNeeded]
  · intro s hs hid
    simp only [tactics, List.mem_append, mem_ite_nil, List.mem_singleton] at hs
    rcases hs with
      ((((((⟨_, rfl⟩ | ⟨_, rfl⟩) | ⟨_, rfl⟩) | ⟨_, rfl⟩) | ⟨_, rfl⟩) | ⟨_, rfl⟩) | ⟨_, rfl⟩) <;>
      simp_all [sectionBidding, sectionGeoFloors, sectionSegment, sectionLatency,
        sectionPolicy, sectionBanner, sectionRewardedCaps]

/-- A banner unit dragging the global eCPM down: 100000 impressions,
no revenue, fill rate 0.95. -/
def floorUnitA : AdUnitMetrics :=
  { ad_unit_id := "b1", format := .banner, platform := .android, avg_ecpm := 0
    fill_rate := 0.95, latency_ms := 0, impressions := 100000, revenue := 0 }

/-- A rewarded unit with eCPM 10: 100000 impressions, revenue 1000,
fill rate 0.9. -/
def floorUnitB : AdUnitMetrics :=
  { ad_unit_id := "r2", format := .rewarded, platform := .android, avg_ecpm := 10
    fill_rate := 0.9, latency_ms := 0, impressions := 100000, revenue := 1000 }

/-- An inventory on which the geo_floors rule fires (global fill 0.925,
global eCPM 5 ≤ 0.95 × 10). -/
def floorsInventory : List InventoryProfile :=
  [{ app_id := "app4", app_name := "App Four", sdk_version := "22.0.0"
     mediation_partners := [], metrics := [floorUnitA, floorUnitB]
     policy_flags := none }]

/-- Claim C4 witness: the rule fires on `floorsInventory`. -/
theorem C4_geo_floors_witness :
    ∃ s ∈ tactics floorsInventory wConstraints (aggregate floorsInventory) 0,
      s.id = "geo_floors" :=
  (C4_geo_floors floorsInventory wConstraints 0).1.mpr (by
    constructor <;>
      · simp [aggregate, globalTotals, formatsList, formatAgg, perFormatTotals,
          allUnits, addUnit, floorsInventory, floorUnitA, floorUnitB]
        norm_num)

/-- Claim C5: the segment_units rule fires exactly when total impressions
across the four formats strictly exceed 200000 and some profile has at most
one rewarded-format unit; in particular a qualifying total of exactly
200000 does not fire it and 200001 does (see its witness). -/
theorem C5_segment_units (inventory : List InventoryProfile)
    (constraints : BusinessConstraints) (now : ℕ) :
    (∃ s ∈ tactics inventory constraints (aggregate inventory) now,
        s.id = "segment_units") ↔
      (totalImps (aggregate inventory) > 200000 ∧
        ∃ inv ∈ inventory,
          (inv.metrics.filter (fun m => decide (m.format = .rewarded))).length ≤ 1) := by
  simp only [tactics, exists_mem_append_iff, exists_mem_ite_one]
  simp [sectionBidding, sectionGeoFloors, sectionSegment, sectionLatency,
    sectionPolicy, sectionBanner, sectionRewardedCaps, hasSingleRewardedUnit]

/-- A rewarded unit with `n` impressions and no other signal. -/
def segUnit (n : ℕ) : AdUnitMetrics :=
  { ad_unit_id := "s1", format := .rewarded, platform := .android, avg_ecpm := 0
    fill_rate := 0, latency_ms := 0, impressions := n, revenue := 0 }

/-- A one-profile, one-rewarded-unit inventory with `n` total impressions. -/
def segInventory (n : ℕ) : List InventoryProfile :=
  [{ app_id := "app5", app_name := "App Five", sdk_version := "22.0.0"
     mediation_partners := [], metrics := [segUnit n], policy_flags := none }]

/-- Claim C5 witness: with a qualifying profile, 200001 total impressions
fire the rule and exactly 200000 do not. -/
theorem C5_segment_units_witness :
    (∃ s ∈ tactics (segInventory 200001) wConstraints (aggregate (segInventory 200001)) 0,
        s.id = "segment_units") ∧
      ¬(∃ s ∈ tactics (segInventory 200000) wConstraints (aggregate (segInventory 200000)) 0,
          s.id = "segment_units") :=
  ⟨(C5_segment_units (segInventory 200001) wConstraints 0).mpr (by decide),
    fun hfire =>
      absurd ((C5_segment_units (segInventory 200000) wConstraints 0).mp hfire)
        (by decide)⟩

/-- Claim C6: the enable_bidding rule fires exactly when the global fill
rate is ≥ 0.85 and the rewarded or the interstitial eCPM gap is ≤ −0.10; its
section carries impact 5, and effort 4 when developer capacity is low,
3 otherwise. -/
theorem C6_enable_bidding (inventory : List InventoryProfile)
    (constraints : BusinessConstraints) (now : ℕ) :
    ((∃ s ∈ tactics inventory constraints (aggregate inventory) now,
        s.id = "enable_bidding") ↔
      ((aggregate inventory).global.fill_rate ≥ 0.85 ∧
        (((aggregate inventory).byFormat .rewarded).avg_ecpm_gap ≤ -0.10 ∨
          ((aggregate inventory).byFormat .interstitial).avg_ecpm_gap ≤ -0.10))) ∧
      ∀ s ∈ tactics inventory constraints (aggregate inventory) now,
        s.id = "enable_bidding" →
          s.impact_score = 5 ∧
            s.effort_score = if constraints.developer_capacity = .low then 4 else 3 := by
  constructor
  · simp only [tactics, exists_mem_append_iff, exists_mem_ite_one]
    simp [sectionBidding, sectionGeoFloors, sectionSegment, sectionLatency,
      sectionPolicy, sectionBanner, sectionRewardedCaps, biddingNeeded]
  · intro s hs hid
    simp only [tactics, List.mem_append, mem_ite_nil, List.mem_singleton] at hs
    rcases hs with
      ((((((⟨_, rfl⟩ | ⟨_, rfl⟩) | ⟨_, rfl⟩) | ⟨_, rfl⟩) | ⟨_, rfl⟩) | ⟨_, rfl⟩) | ⟨_, rfl⟩) <;>
      simp_all [sectionBidding, sectionGeoFloors, sectionSegment, sectionLatency,
        sectionPolicy, sectionBanner, sectionRewardedCaps]

/-- Claim C6 witness: on the end-to-end inventory (global fill 0.86,
rewarded eCPM gap (8.2 − 9.5)/9.5 ≈ −0.137) the rule fires. -/
theorem C6_enable_bidding_witness :
    ∃ s ∈ tactics e2eInventory wConstraints (aggregate e2eInventory) 0,
      s.id = "enable_bidding" :=
  (C6_enable_bidding e2eInventory wConstraints 0).1.mpr (by
    constructor
    · simp [aggregate, globalTotals, formatsList, formatAgg, perFormatTotals,
        allUnits, addUnit, e2eInventory, e2eUnit]
      norm_num
    · left
      simp [aggregate, formatAgg, perFormatTotals, allUnits, addUnit,
        e2eInventory, e2eUnit, benchmarks]
      norm_num)

/-- The timestamp-independent projection of a PlanSection: id, title,
impact score, effort score. -/
def sectionKey (s : PlanSection) : String × String × ℕ × ℕ :=
  (s.id, s.title, s.impact_score, s.effort_score)

/-- Claim C9: rule evaluation is a pure function of inventory, constraints
and aggregate — two evaluations of the same request (differing only in the
wall-clock timestamp) produce sections with identical ids, titles, impact
and effort scores in identical order, and identical guidance bodies except
for the one section whose text embeds the time-derived experiment token. -/
theorem C9_determinism (inventory : List InventoryProfile)
    (constraints : BusinessConstraints) (agg : Aggregate) (now₁ now₂ : ℕ) :
    (tactics inventory constraints agg now₁).map sectionKey =
        (tactics inventory constraints agg now₂).map sectionKey ∧
      (tactics inventory constraints agg now₁).filter
          (fun s => s.id != "enable_bidding") =
        (tactics inventory constraints agg now₂).filter
          (fun s => s.id != "enable_bidding") := by
  constructor <;>
    simp [tactics, apply_ite (List.map sectionKey),
      apply_ite (List.filter (fun s : PlanSection => s.id != "enable_bidding")),
      sectionKey, List.filter_cons, sectionBidding, sectionGeoFloors,
      sectionSegment, sectionLatency, sectionPolicy, sectionBanner,
      sectionRewardedCaps]

/-- Claim C7: whenever the account name is missing or empty, or the
inventory list is missing or empty, `POST` answers the fixed 400 diagnostic
`Missing account_name or inventory` — the result carries no plan data, so
no aggregation, rule evaluation or rendering output is produced. -/
theorem C7_input_validation (body : PlanCreateRequest) (now : ℕ)
    (h : body.account_name = none ∨ body.account_name = some "" ∨
      body.inventory = none ∨ body.inventory = some []) :
    POST body now = ApiResult.clientError "Missing account_name or inventory" := by
  obtain ⟨a, i, c⟩ := body
  rcases h with h | h | h | h <;> simp only at h <;> subst h
  · cases i <;> rfl
  · cases i with
    | none => rfl
    | some l => simp [POST]
  · cases a <;> rfl
  · cases a with
    | none => rfl
    | some name => simp [POST]

/-- Claim C7 witness: a request with an empty account name is rejected with
the fixed diagnostic. -/
theorem C7_input_validation_witness :
    POST ⟨some "", some e2eInventory, some wConstraints⟩ 0 =
      ApiResult.clientError "Missing account_name or inventory" :=
  C7_input_validation ⟨some "", some e2eInventory, some wConstraints⟩ 0
    (Or.inr (Or.inl rfl))

/-- A request with a non-empty account name and non-empty inventory but no
constraints object. -/
def noConstraintsBody : PlanCreateRequest :=
  { account_name := some "acme", inventory := some e2eInventory, constraints := none }

/-- Claim C10: a request with valid account name and inventory but a missing
constraints object passes validation (which checks only those two fields)
and then fails with the generic 500 server error — in the source, rule 4 of
`tactics` unconditionally reads `constraints.latency_budget_ms`, so the
thrown `TypeError` is caught by the `catch` of the handler — rather than being
rejected as a 400 input-validation error. -/
theorem C10_missing_constraints :
    POST noConstraintsBody 0 = ApiResult.serverError := by
  simp only [POST, noConstraintsBody]
  rw [if_neg]
  rintro (h | h)
  · exact absurd h (by decide)
  · exact absurd h (by simp [e2eInventory])

end JTP
